import Mathlib

/- Shallow embedding of the ERC-7562 validation tracer
   (src/tracing/erc_7562_validation.rs and src/tracing/erc_7562.rs).

   Conventions of the embedding:
   - machine integers (U256, u64, usize, u8) are Nat, with explicit mod 2^w where
     the source truncates;
   - Rust HashMap fields are association lists (List (Nat x value)) with the usual
     find/insert/increment operations; the source keys storage maps by the hex
     string of the slot, which is injective on U256, so slots are keyed by value;
   - Rust Vec used as a stack is a Lean List whose HEAD is the TOP of the stack
     (Vec::push = cons, Vec::last = head, Vec index 0 = List getLast);
   - fallible operations (unwrap, slice panics, peek) are Option; none models a
     panic of the handler;
   - the two external collaborators (the revm Database / state provider, and the
     alloy RevertReason decoder) are parameters (Provider structure, decode
     function), since their code is outside this repository. -/

namespace Erc7562

/- Association list operations mirroring HashMap::get / contains_key / insert and
   the increment_count macro (entry().and_modify(|v| v+1).or_insert(1)). -/

def alist_find {α : Type} (m : List (Nat × α)) (k : Nat) : Option α :=
  match m with
  | [] => none
  | (k2, v) :: rest => if k2 = k then some v else alist_find rest k

def alist_contains {α : Type} (m : List (Nat × α)) (k : Nat) : Bool :=
  (alist_find m k).isSome

def alist_insert {α : Type} (m : List (Nat × α)) (k : Nat) (v : α) : List (Nat × α) :=
  match m with
  | [] => [(k, v)]
  | (k2, v2) :: rest => if k2 = k then (k2, v) :: rest else (k2, v2) :: alist_insert rest k v

def alist_incr (m : List (Nat × Nat)) (k : Nat) : List (Nat × Nat) :=
  match m with
  | [] => [(k, 1)]
  | (k2, v2) :: rest => if k2 = k then (k2, v2 + 1) :: rest else (k2, v2) :: alist_incr rest k

/- HashSet<Bytes>::insert (order of iteration is irrelevant to the tracer). -/
def set_insert (s : List (List Nat)) (x : List Nat) : List (List Nat) :=
  if x ∈ s then s else s ++ [x]

/- Opcode byte values used by the tracer (revm OpCode constants). -/

namespace OpCode

def ADD : Nat := 0x01
def MUL : Nat := 0x02
def SUB : Nat := 0x03
def DIV : Nat := 0x04
def LT : Nat := 0x10
def GT : Nat := 0x11
def SLT : Nat := 0x12
def SGT : Nat := 0x13
def EQ : Nat := 0x14
def ISZERO : Nat := 0x15
def AND : Nat := 0x16
def OR : Nat := 0x17
def NOT : Nat := 0x19
def SHL : Nat := 0x1b
def SHR : Nat := 0x1c
def KECCAK256 : Nat := 0x20
def CALLER : Nat := 0x33
def EXTCODESIZE : Nat := 0x3b
def EXTCODECOPY : Nat := 0x3c
def EXTCODEHASH : Nat := 0x3f
def POP : Nat := 0x50
def MSTORE : Nat := 0x52
def SLOAD : Nat := 0x54
def SSTORE : Nat := 0x55
def GAS : Nat := 0x5a
def JUMPDEST : Nat := 0x5b
def TLOAD : Nat := 0x5c
def TSTORE : Nat := 0x5d
def PUSH0 : Nat := 0x5f
def SWAP16 : Nat := 0x9f
def CREATE : Nat := 0xf0
def CALL : Nat := 0xf1
def CALLCODE : Nat := 0xf2
def RETURN : Nat := 0xf3
def DELEGATECALL : Nat := 0xf4
def CREATE2 : Nat := 0xf5
def EXTCALL : Nat := 0xf8
def EXTDELEGATECALL : Nat := 0xf9
def STATICCALL : Nat := 0xfa
def EXTSTATICCALL : Nat := 0xfb
def REVERT : Nat := 0xfd

end OpCode

/- OpCode::new(byte).is_some(): the valid-opcode table of the revm generation the
   tracer builds against (Cancun plus the EOF opcode ranges). -/
def isValidOpcode (b : Nat) : Bool :=
  b ≤ 0x0b || (0x10 ≤ b && b ≤ 0x1d) || b == 0x20 ||
  (0x30 ≤ b && b ≤ 0x3f) || (0x40 ≤ b && b ≤ 0x4a) ||
  (0x50 ≤ b && b ≤ 0x9f) || (0xa0 ≤ b && b ≤ 0xa4) ||
  (0xd0 ≤ b && b ≤ 0xd3) || (0xe0 ≤ b && b ≤ 0xe8) ||
  b == 0xec || b == 0xee || (0xf0 ≤ b && b ≤ 0xf5) ||
  (0xf7 ≤ b && b ≤ 0xfb) || b == 0xfd || b == 0xfe || b == 0xff

/- Opcode classifier (lines 309-319 of erc_7562_validation.rs). -/

def is_ext (opcode : Nat) : Bool :=
  opcode == OpCode.EXTCODEHASH || opcode == OpCode.EXTCODESIZE || opcode == OpCode.EXTCODECOPY

def is_call (opcode : Nat) : Bool :=
  opcode == OpCode.CALL || opcode == OpCode.CALLCODE || opcode == OpCode.DELEGATECALL ||
  opcode == OpCode.STATICCALL

def is_ext_or_call (opcode : Nat) : Bool :=
  is_ext opcode || is_call opcode

/- Address::from_word keeps the low-order 20 bytes of a 32-byte word. -/
def addr_from_word (w : Nat) : Nat := w % 2 ^ 160

/- The big-endian byte representation of a machine integer, most significant
   byte first (Address::as_slice is the 20 big-endian bytes). -/
def beBytes (len a : Nat) : List Nat :=
  (List.range len).map (fun i => a / 256 ^ (len - 1 - i) % 256)

/- U256::from_le_slice: byte 0 of the slice is the LEAST significant byte. -/
def fromLeSlice (bs : List Nat) : Nat :=
  bs.foldr (fun b acc => b + 256 * acc) 0

/- is_allowed_precompile (lines 321-324): note the source feeds the big-endian
   address bytes to from_le_slice, so the comparison is against the byte-reversed
   value of the address. -/
def is_allowed_precompile (address : Nat) : Bool :=
  let address_int := fromLeSlice (beBytes 20 address)
  decide (0 < address_int) && decide (address_int < 10)

/- default_ignored_opcodes (lines 326-359): the contiguous PUSH0..SWAP16 range
   plus the listed additional opcodes. -/
def default_ignored_opcodes : List Nat :=
  (List.range (OpCode.SWAP16 + 1 - OpCode.PUSH0)).map (fun i => OpCode.PUSH0 + i) ++
  [OpCode.POP, OpCode.ADD, OpCode.SUB, OpCode.MUL, OpCode.DIV, OpCode.EQ, OpCode.LT,
   OpCode.GT, OpCode.SLT, OpCode.SGT, OpCode.SHL, OpCode.SHR, OpCode.AND, OpCode.OR,
   OpCode.NOT, OpCode.ISZERO]

structure Config where
  ignored_opcodes : List Nat
  stack_top_items_size : Nat
  with_log : Bool
deriving Repr, DecidableEq

/- load_full_config (lines 41-53). -/
def load_full_config (config : Config) : Config :=
  let c1 :=
    if config.ignored_opcodes.isEmpty then
      { config with ignored_opcodes := default_ignored_opcodes }
    else config
  if config.stack_top_items_size == 0 then
    { c1 with stack_top_items_size := 3 }
  else c1

/- CallFrameWithOpCodes and its nested records (alloy types populated by the
   tracer; exactly the fields the tracer constructs, reads or writes). -/

structure ContractSizeWithOpCode where
  contract_size : Nat
  opcode : Nat
deriving Repr, DecidableEq

structure AccessedSlots where
  reads : List (Nat × List Nat)
  writes : List (Nat × Nat)
  transient_reads : List (Nat × Nat)
  transient_writes : List (Nat × Nat)
deriving Repr, DecidableEq

structure CallLogFrame where
  data : Option (List Nat)
  position : Option Nat
deriving Repr, DecidableEq

structure FrameCore where
  typ : String
  fromAddr : Nat
  toAddr : Option Nat
  input : List Nat
  value : Option Nat
  gas : Nat
  gas_used : Nat
  output : Option (List Nat)
  error : Option String
  revert_reason : Option String
  reverted : Bool
  out_of_gas : Bool
  used_opcodes : List (Nat × Nat)
  accessed_slots : AccessedSlots
  ext_code_access_info : List Nat
  contract_size : List (Nat × ContractSizeWithOpCode)
  logs : List CallLogFrame
deriving Repr, DecidableEq

/- A frame is its flat fields plus the ordered list of sealed children. -/
inductive CallFrame : Type where
  | mk (core : FrameCore) (calls : List CallFrame)

def CallFrame.core : CallFrame → FrameCore
  | .mk c _ => c

def CallFrame.calls : CallFrame → List CallFrame
  | .mk _ cs => cs

def emptyAccessedSlots : AccessedSlots :=
  { reads := [], writes := [], transient_reads := [], transient_writes := [] }

/- Default::default() for CallFrameWithOpCodes. -/
def FrameCore.empty : FrameCore :=
  { typ := "", fromAddr := 0, toAddr := none, input := [], value := none, gas := 0,
    gas_used := 0, output := none, error := none, revert_reason := none,
    reverted := false, out_of_gas := false, used_opcodes := [],
    accessed_slots := emptyAccessedSlots, ext_code_access_info := [],
    contract_size := [], logs := [] }

structure OpCodeWithPartialStack where
  opcode : Nat
  stack_top_items : List Nat
deriving Repr, DecidableEq

/- The tracer state (lines 24-33). -/
structure Tracer where
  config : Config
  gas_limit : Nat
  depth : Nat
  interrupt : Bool
  callstack_with_opcodes : List CallFrame
  last_opcode_with_stack : Option OpCodeWithPartialStack
  keccak : List (List Nat)

/- The state provider behind the revm EvmContext: code_at and storage_at;
   none models a failed query (Err is swallowed by the tracer). -/
structure Provider where
  code : Nat → Option (List Nat)
  storage : Nat → Nat → Option Nat

/- The interpreter view offered to step: current opcode byte, operand stack
   (index 0 = top entry, peek i = get? i) and shared memory bytes. -/
structure Interp where
  opcode : Nat
  stack : List Nat
  memory : List Nat
deriving Repr, DecidableEq

/- handle_ext_opcodes (lines 66-79): indexing stack_top_items[0] panics (none)
   when the captured window is empty. -/
def handle_ext_opcodes (last_opcode_with_stack : Option OpCodeWithPartialStack)
    (opcode : Nat) (current_call_frame : FrameCore) : Option FrameCore :=
  match last_opcode_with_stack with
  | none => some current_call_frame
  | some last =>
    if is_ext last.opcode then
      match last.stack_top_items.get? 0 with
      | none => none
      | some w =>
        let addr := addr_from_word w
        if !(last.opcode == OpCode.EXTCODESIZE && opcode == OpCode.ISZERO) then
          some { current_call_frame with
                 ext_code_access_info := current_call_frame.ext_code_access_info ++ [addr] }
        else some current_call_frame
    else some current_call_frame

/- check_revert (lines 81-85): clears the lookback memory. -/
def check_revert (last_opcode_with_stack : Option OpCodeWithPartialStack)
    (opcode : Nat) : Option OpCodeWithPartialStack :=
  if opcode == OpCode.REVERT || opcode == OpCode.RETURN then none
  else last_opcode_with_stack

/- handle_gas_observed (lines 87-98). -/
def handle_gas_observed (last_opcode_with_stack : Option OpCodeWithPartialStack)
    (opcode : Nat) (current_call_frame : FrameCore) : FrameCore :=
  match last_opcode_with_stack with
  | none => current_call_frame
  | some last =>
    if last.opcode == OpCode.GAS && !is_call opcode then
      { current_call_frame with
        used_opcodes := alist_incr current_call_frame.used_opcodes OpCode.GAS }
    else current_call_frame

/- store_used_opcode (lines 111-115). -/
def store_used_opcode (config : Config) (opcode : Nat)
    (current_call_frame : FrameCore) : FrameCore :=
  if opcode != OpCode.GAS && !config.ignored_opcodes.contains opcode then
    { current_call_frame with
      used_opcodes := alist_incr current_call_frame.used_opcodes opcode }
  else current_call_frame

/- handle_accessed_contract_size (lines 117-140): peek(n).unwrap() panics (none)
   when the operand stack lacks the address operand. -/
def handle_accessed_contract_size (p : Provider) (opcode : Nat) (stack : List Nat)
    (current_call_frame : FrameCore) : Option FrameCore :=
  if is_ext_or_call opcode then
    let n := if !is_ext opcode then 1 else 0
    match stack.get? n with
    | none => none
    | some w =>
      let addr := addr_from_word w
      if !alist_contains current_call_frame.contract_size addr &&
         !is_allowed_precompile addr then
        match p.code addr with
        | some code =>
          some { current_call_frame with
                 contract_size := alist_insert current_call_frame.contract_size addr
                   { contract_size := code.length, opcode := opcode } }
        | none => some current_call_frame
      else some current_call_frame
  else some current_call_frame

/- handle_storage_access (lines 153-189): note line 168 of the source reads the
   READS map a second time where the comment structure suggests the writes map;
   the duplicated lookup is preserved here. -/
def handle_storage_access (p : Provider) (opcode : Nat) (stack : List Nat)
    (current_call_frame : FrameCore) : Option FrameCore :=
  if opcode == OpCode.SLOAD || opcode == OpCode.SSTORE ||
     opcode == OpCode.TLOAD || opcode == OpCode.TSTORE then
    match stack.get? 0 with
    | none => none
    | some slot =>
      let addr := addr_from_word slot
      if opcode == OpCode.SLOAD then
        let reads := alist_find current_call_frame.accessed_slots.reads slot
        let writes := alist_find current_call_frame.accessed_slots.reads slot
        if reads.isNone && writes.isNone then
          match p.storage addr slot with
          | some state =>
            some { current_call_frame with
                   accessed_slots := { current_call_frame.accessed_slots with
                     reads := alist_insert current_call_frame.accessed_slots.reads slot [state] } }
          | none => some current_call_frame
        else some current_call_frame
      else if opcode == OpCode.SSTORE then
        some { current_call_frame with
               accessed_slots := { current_call_frame.accessed_slots with
                 writes := alist_incr current_call_frame.accessed_slots.writes slot } }
      else if opcode == OpCode.TLOAD then
        some { current_call_frame with
               accessed_slots := { current_call_frame.accessed_slots with
                 transient_reads := alist_incr current_call_frame.accessed_slots.transient_reads slot } }
      else
        some { current_call_frame with
               accessed_slots := { current_call_frame.accessed_slots with
                 transient_writes := alist_incr current_call_frame.accessed_slots.transient_writes slot } }
  else some current_call_frame

/- store_keccak (lines 100-109): the two u64 conversions panic past u64::MAX and
   SharedMemory::slice panics out of range; both are none here. -/
def store_keccak (opcode : Nat) (interp : Interp)
    (keccak : List (List Nat)) : Option (List (List Nat)) :=
  if opcode == OpCode.KECCAK256 then
    match interp.stack.get? 0, interp.stack.get? 1 with
    | some data_offset, some data_length =>
      if data_offset < 2 ^ 64 && data_length < 2 ^ 64 then
        if data_offset + data_length ≤ interp.memory.length then
          some (set_insert keccak ((interp.memory.drop data_offset).take data_length))
        else none
      else none
    | _, _ => none
  else some keccak

/- The engine state that one step event threads through the handlers besides the
   frame itself: the lookback memory and the keccak preimage set. The frame held
   here is the CLONE the source makes of the top frame at line 234. -/
structure StepState where
  last_opcode_with_stack : Option OpCodeWithPartialStack
  keccak : List (List Nat)
  frame : FrameCore

/- The body of Inspector::step (lines 222-251) acting on one frame: handler
   order and lookback updates exactly as in the source. The window snapshot is
   the loop over 0..=stack_top_items_size of fallible peeks. -/
def stepFrame (config : Config) (p : Provider) (interp : Interp)
    (s : StepState) : Option StepState :=
  let opcode := interp.opcode
  let stack_top_items :=
    (List.range (config.stack_top_items_size + 1)).filterMap (fun i => interp.stack.get? i)
  let opcode_with_stack : OpCodeWithPartialStack :=
    { opcode := opcode, stack_top_items := stack_top_items }
  match (if (s.last_opcode_with_stack).isSome then
           handle_ext_opcodes s.last_opcode_with_stack opcode s.frame
         else some s.frame) with
  | none => none
  | some f1 =>
    let last1 := check_revert s.last_opcode_with_stack opcode
    match handle_accessed_contract_size p opcode interp.stack f1 with
    | none => none
    | some f2 =>
      let f3 := if last1.isSome then handle_gas_observed last1 opcode f2 else f2
      let f4 := store_used_opcode config opcode f3
      match handle_storage_access p opcode interp.stack f4 with
      | none => none
      | some f5 =>
        match store_keccak opcode interp s.keccak with
        | none => none
        | some k =>
          some { last_opcode_with_stack := some opcode_with_stack, keccak := k, frame := f5 }

/- Inspector::step at the engine level (lines 222-251). The source clones the
   top frame (line 234), feeds the clone to every handler and never writes it
   back, so the returned tracer keeps the stored callstack unchanged; only the
   lookback memory and the keccak set survive. none models the panic of
   OpCode::new(..).unwrap() on an invalid byte, of last().unwrap() on an empty
   callstack, or of an operand peek inside a handler. -/
def Tracer.step (t : Tracer) (interp : Interp) (p : Provider) : Option Tracer :=
  if !isValidOpcode interp.opcode then none
  else
    match t.callstack_with_opcodes with
    | [] => none
    | top :: rest =>
      match stepFrame t.config p interp
          { last_opcode_with_stack := t.last_opcode_with_stack,
            keccak := t.keccak, frame := top.core } with
      | none => none
      | some s =>
        some { t with last_opcode_with_stack := s.last_opcode_with_stack,
                      keccak := s.keccak,
                      callstack_with_opcodes := top :: rest }

/- The frame value the handlers computed during step: in the source this is the
   local current_call_frame that goes out of scope at the end of step. -/
def Tracer.stepComputedFrame (t : Tracer) (interp : Interp) (p : Provider) :
    Option FrameCore :=
  if !isValidOpcode interp.opcode then none
  else
    match t.callstack_with_opcodes with
    | [] => none
    | top :: _ =>
      (stepFrame t.config p interp
        { last_opcode_with_stack := t.last_opcode_with_stack,
          keccak := t.keccak, frame := top.core }).map StepState.frame

/- CallScheme and its opcode string (lines 373-385). -/
inductive CallScheme : Type where
  | call
  | callCode
  | delegateCall
  | staticCall
  | extCall
  | extDelegateCall
  | extStaticCall
deriving Repr, DecidableEq

def get_opcode_from_call_scheme (call_scheme : CallScheme) : String :=
  match call_scheme with
  | .call => "CALL"
  | .callCode => "CALLCODE"
  | .delegateCall => "DELEGATECALL"
  | .staticCall => "STATICCALL"
  | .extDelegateCall => "EXTDELEGATECALL"
  | .extStaticCall => "EXTSTATICCALL"
  | .extCall => "EXTCALL"

/- CallInputs as read by the call hook. -/
structure CallInputs where
  scheme : CallScheme
  caller : Nat
  target_address : Nat
  input : List Nat
  value : Nat
  gas_limit : Nat
deriving Repr, DecidableEq

/- Inspector::call (lines 196-220); journal_depth is context.journaled_state.depth. -/
def Tracer.call (t : Tracer) (journal_depth : Nat) (inputs : CallInputs) : Tracer :=
  let call : CallFrame := .mk
    { FrameCore.empty with
      typ := get_opcode_from_call_scheme inputs.scheme
      fromAddr := inputs.caller
      toAddr := some inputs.target_address
      input := inputs.input
      value := some inputs.value
      gas := if journal_depth == 0 then inputs.gas_limit else 0 } []
  { t with gas_limit := inputs.gas_limit,
           depth := journal_depth,
           callstack_with_opcodes := call :: t.callstack_with_opcodes }

/- revm InstructionResult restricted to the classes the tracer distinguishes.
   The constructors listed are the full ok and revert classes of revm's
   return_ok and return_revert macros plus the two error variants the tracer
   names; remaining revm error variants all classify exactly like precompileError. -/
inductive InstructionResult : Type where
  | continueRes
  | stop
  | ret
  | selfDestruct
  | returnContract
  | revert
  | callTooDeep
  | outOfFunds
  | createInitCodeSizeLimit
  | outOfGas
  | precompileError
deriving Repr, DecidableEq

def InstructionResult.is_ok : InstructionResult → Bool
  | .continueRes | .stop | .ret | .selfDestruct | .returnContract => true
  | _ => false

def InstructionResult.is_revert : InstructionResult → Bool
  | .revert | .callTooDeep | .outOfFunds | .createInitCodeSizeLimit => true
  | _ => false

def InstructionResult.is_error : InstructionResult → Bool
  | .continueRes | .stop | .ret | .selfDestruct | .returnContract => false
  | .revert | .callTooDeep | .outOfFunds | .createInitCodeSizeLimit => false
  | _ => true

/- The Debug rendering used by format at line 396. -/
def InstructionResult.debugString : InstructionResult → String
  | .continueRes => "Continue"
  | .stop => "Stop"
  | .ret => "Return"
  | .selfDestruct => "SelfDestruct"
  | .returnContract => "ReturnContract"
  | .revert => "Revert"
  | .callTooDeep => "CallTooDeep"
  | .outOfFunds => "OutOfFunds"
  | .createInitCodeSizeLimit => "CreateInitCodeSizeLimit"
  | .outOfGas => "OutOfGas"
  | .precompileError => "PrecompileError"

/- CallOutcome as read by the tracer: the instruction result, the output bytes
   and outcome.gas().spent(). -/
structure CallOutcome where
  result : InstructionResult
  output : List Nat
  gas_spent : Nat
deriving Repr, DecidableEq

/- process_output (lines 387-412). decode is alloy RevertReason::decode
   followed by to_string, a pure external function taken as a parameter. -/
def process_output (decode : List Nat → Option String) (frame : CallFrame)
    (output : CallOutcome) : CallFrame :=
  let core := frame.core
  if output.result.is_ok then
    .mk { core with output := some output.output } frame.calls
  else
    let core1 :=
      if output.result.is_error then
        { core with error := some output.result.debugString }
      else core
    if output.result.is_error && output.output.isEmpty then
      .mk core1 frame.calls
    else
      let core2 :=
        if output.result.is_revert && decide (4 ≤ output.output.length) then
          match decode output.output with
          | some reason => { core1 with revert_reason := some reason }
          | none => core1
        else core1
      .mk { core2 with output := some output.output } frame.calls

/- capture_end (lines 142-151): only acts when exactly one frame is on the
   stack, in which case callstack[0] is that frame. -/
def Tracer.capture_end (decode : List Nat → Option String) (t : Tracer)
    (outcome : CallOutcome) : Tracer :=
  match t.callstack_with_opcodes with
  | [c] => { t with callstack_with_opcodes := [process_output decode c outcome] }
  | _ => t

/- Inspector::call_end (lines 253-283). With more than one frame on the stack
   the pop and the push onto the parent always succeed, so the fall-through arm
   is unreachable; it is none, matching the unwraps it would model. -/
def Tracer.call_end (decode : List Nat → Option String) (t : Tracer)
    (outcome : CallOutcome) : Option Tracer :=
  if t.depth == 0 then some (t.capture_end decode outcome)
  else
    let t1 : Tracer := { t with depth := t.depth - 1 }
    if t1.callstack_with_opcodes.length ≤ 1 then some t1
    else
      match t1.callstack_with_opcodes with
      | call :: parent :: rest =>
        let c1 :=
          match outcome.result with
          | .outOfGas | .outOfFunds => { call.core with out_of_gas := true }
          | _ => call.core
        let c2 := { c1 with gas_used := outcome.gas_spent }
        let new_call := process_output decode (.mk c2 call.calls) outcome
        some { t1 with callstack_with_opcodes :=
          (CallFrame.mk parent.core (parent.calls ++ [new_call])) :: rest }
      | _ => none

/- Inspector::log (lines 285-307). -/
def Tracer.log (t : Tracer) (data : List Nat) : Tracer :=
  if !t.config.with_log then t
  else if t.interrupt then t
  else
    match t.callstack_with_opcodes with
    | [] => t
    | top :: rest =>
      let lg : CallLogFrame := { data := some data, position := some top.calls.length }
      { t with callstack_with_opcodes :=
        (CallFrame.mk { top.core with logs := top.core.logs ++ [lg] } top.calls) :: rest }

/- Iterated stepFrame over a list of step events: the per-frame bookkeeping a
   sequence of steps performs while one frame stays on top of the stack. -/
def runFrame (config : Config) (p : Provider) (evs : List Interp)
    (s : StepState) : Option StepState :=
  match evs with
  | [] => some s
  | e :: rest =>
    match stepFrame config p e s with
    | none => none
    | some s2 => runFrame config p rest s2

end Erc7562

/- The second tracer draft in the repository, src/tracing/erc_7562.rs. Its
   process_output is the only place in the repository that seals contract
   creation frames. The child list of its frame type is omitted: no function in
   that file reads or writes it. -/
namespace Erc7562Draft

structure AccessedSlots where
  reads : List (Nat × List Nat)
  writes : List (Nat × Nat)
  transient_reads : List (Nat × Nat)
  transient_writes : List (Nat × Nat)
deriving Repr, DecidableEq

structure ContractSizeWithOpcode where
  contract_size : Nat
  opcode : Nat
deriving Repr, DecidableEq

structure CallFrameWithOpcodes where
  ty : Nat
  fromAddr : Nat
  gas : Nat
  gas_used : Nat
  toAddr : Nat
  input : List Nat
  output : List Nat
  error : String
  revert_reason : String
  value : Nat
  reverted_snapchat : Bool
  accessed_slots : AccessedSlots
  ext_code_access_info : List Nat
  used_opcodes : List (Nat × Nat)
  contract_size : List (Nat × ContractSizeWithOpcode)
  out_of_gas : Bool
  keccak_preimages : List (List Nat)
deriving Repr, DecidableEq

/- CallFrameWithOpcodes::process_output (lines 52-77 of erc_7562.rs): store the
   outcome fields, zero the target address of CREATE and CREATE2 frames, and
   stop early on short output; the revert-reason decoding below that point is
   commented out in the source. -/
def process_output (f : CallFrameWithOpcodes) (output : List Nat)
    (error : String) (reverted : Bool) : CallFrameWithOpcodes :=
  let f1 := { f with output := output, error := error, reverted_snapchat := reverted }
  let f2 :=
    if f1.ty == Erc7562.OpCode.CREATE || f1.ty == Erc7562.OpCode.CREATE2 then
      { f1 with toAddr := 0 }
    else f1
  if f2.output.length < 4 then f2 else f2

end Erc7562Draft

namespace Erc7562

/- The count recorded in a histogram for one opcode (absent key counts as 0). -/
def histCount (m : List (Nat × Nat)) (k : Nat) : Nat :=
  (alist_find m k).getD 0

/- The gas-observation count of the claim as stated: one per step whose
   previously observed opcode was GAS and whose current opcode is not call-like. -/
def gas_observation_claim_count (prev : Option Nat) (ops : List Nat) : Nat :=
  match ops with
  | [] => 0
  | op :: rest =>
    (if prev = some OpCode.GAS ∧ is_call op = false then 1 else 0)
    + gas_observation_claim_count (some op) rest

/- The gas-observation count the code realizes: as above, except that a step
   whose current opcode is REVERT or RETURN clears the lookback memory before
   the gas check and therefore never counts. -/
def gas_observation_count (prev : Option Nat) (ops : List Nat) : Nat :=
  match ops with
  | [] => 0
  | op :: rest =>
    (if prev = some OpCode.GAS ∧ is_call op = false
        ∧ op ≠ OpCode.REVERT ∧ op ≠ OpCode.RETURN then 1 else 0)
    + gas_observation_count (some op) rest

/- Concrete inputs used by the counterexamples and witnesses below. -/

/- The configuration the tracer runs with out of the box: Config::new gives the
   empty ignored set and window size 0, which load_full_config replaces with the
   defaults. -/
def defCfg : Config :=
  load_full_config { ignored_opcodes := [], stack_top_items_size := 0, with_log := true }

def pZ : Provider := { code := fun _ => some [0], storage := fun _ _ => some 7 }

def ev (op : Nat) (st : List Nat) : Interp := { opcode := op, stack := st, memory := [] }

def s0 : StepState := { last_opcode_with_stack := none, keccak := [], frame := FrameCore.empty }

def tOne : Tracer :=
  { config := defCfg, gas_limit := 0, depth := 0, interrupt := false,
    callstack_with_opcodes := [CallFrame.mk FrameCore.empty []],
    last_opcode_with_stack := none, keccak := [] }

def tInt : Tracer := { tOne with interrupt := true }

def inpX : CallInputs :=
  { scheme := .call, caller := 11, target_address := 22, input := [], value := 0,
    gas_limit := 5000 }

/- A decoder recognizing one concrete Error(string)-selector payload, standing
   in for alloy RevertReason::decode in the concrete scenarios. -/
def dec7 : List Nat → Option String :=
  fun bs => if bs = [8, 195, 121, 160, 0] then some "oops" else none

def child7 : CallFrame := CallFrame.mk { FrameCore.empty with typ := "CALL", toAddr := some 77 } []

def parent7 : CallFrame := CallFrame.mk { FrameCore.empty with typ := "CALL" } []

def t7 : Tracer := { tOne with depth := 1, callstack_with_opcodes := [child7, parent7] }

def out7 : CallOutcome := { result := .revert, output := [8, 195, 121, 160, 0], gas_spent := 100 }

end Erc7562

namespace Erc7562

/- Helper lemmas shared by the claim theorems. -/

theorem alist_find_incr_self (m : List (Nat × Nat)) (k : Nat) :
    alist_find (alist_incr m k) k = some ((alist_find m k).getD 0 + 1) := by
  induction m with
  | nil => simp [alist_incr, alist_find]
  | cons hd tl ih =>
    obtain ⟨k2, v2⟩ := hd
    by_cases hk : k2 = k
    · simp [alist_incr, alist_find, hk]
    · simp [alist_incr, alist_find, hk, ih]

theorem alist_find_incr_of_ne (m : List (Nat × Nat)) (k j : Nat) (h : k ≠ j) :
    alist_find (alist_incr m k) j = alist_find m j := by
  induction m with
  | nil => simp [alist_incr, alist_find, h]
  | cons hd tl ih =>
    obtain ⟨k2, v2⟩ := hd
    by_cases hk : k2 = k
    · subst hk
      simp [alist_incr, alist_find, h]
    · by_cases hj : k2 = j
      · subst hj
        simp [alist_incr, alist_find, hk]
      · simp [alist_incr, alist_find, hk, hj, ih]

theorem window_eq_take {α : Type} (l : List α) (n : Nat) :
    (List.range n).filterMap (fun i => l.get? i) = l.take n := by
  induction l generalizing n with
  | nil =>
    have hnil : ∀ L : List Nat, L.filterMap (fun i => ([] : List α).get? i) = [] := by
      intro L
      induction L with
      | nil => rfl
      | cons a L ihL => simp [List.filterMap_cons, ihL]
    simp [hnil]
  | cons a l ih =>
    cases n with
    | zero => rfl
    | succ m =>
      rw [List.range_succ_eq_map]
      simp only [List.filterMap_cons, List.get?]
      rw [List.filterMap_map]
      have hcomp : (fun i => (a :: l).get? i) ∘ Nat.succ = fun i => l.get? i := by
        funext i
        rfl
      rw [hcomp, ih]
      rfl

theorem handle_ext_opcodes_used_opcodes (last : Option OpCodeWithPartialStack)
    (opcode : Nat) (f f2 : FrameCore)
    (h : handle_ext_opcodes last opcode f = some f2) :
    f2.used_opcodes = f.used_opcodes := by
  unfold handle_ext_opcodes at h
  split at h
  · cases h
    rfl
  · split at h
    · split at h
      · exact absurd h (by simp)
      · split at h <;> (cases h; rfl)
    · cases h
      rfl

theorem handle_accessed_contract_size_used_opcodes (p : Provider) (opcode : Nat)
    (stack : List Nat) (f f2 : FrameCore)
    (h : handle_accessed_contract_size p opcode stack f = some f2) :
    f2.used_opcodes = f.used_opcodes := by
  unfold handle_accessed_contract_size at h
  dsimp only at h
  repeat' split at h
  all_goals first
    | (cases h; rfl)
    | exact Option.noConfusion h

theorem handle_storage_access_used_opcodes (p : Provider) (opcode : Nat)
    (stack : List Nat) (f f2 : FrameCore)
    (h : handle_storage_access p opcode stack f = some f2) :
    f2.used_opcodes = f.used_opcodes := by
  unfold handle_storage_access at h
  dsimp only at h
  repeat' split at h
  all_goals first
    | (cases h; rfl)
    | exact Option.noConfusion h

theorem store_used_opcode_gas (config : Config) (opcode : Nat) (f : FrameCore) :
    histCount (store_used_opcode config opcode f).used_opcodes OpCode.GAS
      = histCount f.used_opcodes OpCode.GAS := by
  unfold store_used_opcode
  split
  · next hc =>
    have hne : opcode ≠ OpCode.GAS := by
      intro he
      simp [he] at hc
    unfold histCount
    simp [alist_find_incr_of_ne _ _ _ hne]
  · rfl

theorem handle_gas_observed_gas (last : Option OpCodeWithPartialStack)
    (opcode : Nat) (f : FrameCore) :
    histCount (handle_gas_observed last opcode f).used_opcodes OpCode.GAS
      = histCount f.used_opcodes OpCode.GAS
        + (if last.map OpCodeWithPartialStack.opcode = some OpCode.GAS
              ∧ is_call opcode = false then 1 else 0) := by
  cases last with
  | none => simp [handle_gas_observed]
  | some l =>
    by_cases hg : (l.opcode == OpCode.GAS && !is_call opcode) = true
    · have h1 : l.opcode = OpCode.GAS := by
        have := hg
        simp only [Bool.and_eq_true, beq_iff_eq] at this
        exact this.1
      have h2 : is_call opcode = false := by
        have := hg
        simp only [Bool.and_eq_true, Bool.not_eq_true'] at this
        exact this.2
      simp only [handle_gas_observed, hg, if_true]
      unfold histCount
      simp [alist_find_incr_self, h1, h2]
    · have hcond : ¬((some l).map OpCodeWithPartialStack.opcode = some OpCode.GAS
          ∧ is_call opcode = false) := by
        intro hand
        apply hg
        have ha : l.opcode = OpCode.GAS := by
          simpa using hand.1
        simp [ha, hand.2]
      have hb : (l.opcode == OpCode.GAS && !is_call opcode) = false := by
        simpa using hg
      simp only [handle_gas_observed, hb]
      rw [if_neg hcond]
      simp

theorem stepFrame_gas (config : Config) (p : Provider) (interp : Interp)
    (s s2 : StepState) (h : stepFrame config p interp s = some s2) :
    histCount s2.frame.used_opcodes OpCode.GAS
      = histCount s.frame.used_opcodes OpCode.GAS
        + (if s.last_opcode_with_stack.map OpCodeWithPartialStack.opcode = some OpCode.GAS
              ∧ is_call interp.opcode = false
              ∧ interp.opcode ≠ OpCode.REVERT ∧ interp.opcode ≠ OpCode.RETURN
           then 1 else 0)
    ∧ s2.last_opcode_with_stack.map OpCodeWithPartialStack.opcode = some interp.opcode := by
  unfold stepFrame at h
  dsimp only at h
  rcases h1 : (if (s.last_opcode_with_stack).isSome then
      handle_ext_opcodes s.last_opcode_with_stack interp.opcode s.frame
    else some s.frame) with _ | f1
  · rw [h1] at h
    exact Option.noConfusion h
  rw [h1] at h
  dsimp only at h
  have hf1 : f1.used_opcodes = s.frame.used_opcodes := by
    by_cases hl : (s.last_opcode_with_stack).isSome
    · rw [if_pos hl] at h1
      exact handle_ext_opcodes_used_opcodes _ _ _ _ h1
    · rw [if_neg hl] at h1
      cases h1
      rfl
  rcases h2 : handle_accessed_contract_size p interp.opcode interp.stack f1 with _ | f2
  · rw [h2] at h
    exact Option.noConfusion h
  rw [h2] at h
  dsimp only at h
  have hf2 : f2.used_opcodes = f1.used_opcodes :=
    handle_accessed_contract_size_used_opcodes _ _ _ _ _ h2
  rcases h5 : handle_storage_access p interp.opcode interp.stack
      (store_used_opcode config interp.opcode
        (if (check_revert s.last_opcode_with_stack interp.opcode).isSome then
          handle_gas_observed (check_revert s.last_opcode_with_stack interp.opcode)
            interp.opcode f2
         else f2)) with _ | f5
  · rw [h5] at h
    exact Option.noConfusion h
  rw [h5] at h
  dsimp only at h
  rcases h6 : store_keccak interp.opcode interp s.keccak with _ | k
  · rw [h6] at h
    exact Option.noConfusion h
  rw [h6] at h
  dsimp only at h
  cases h
  refine ⟨?_, by simp⟩
  have hstor : f5.used_opcodes
      = (store_used_opcode config interp.opcode
          (if (check_revert s.last_opcode_with_stack interp.opcode).isSome then
            handle_gas_observed (check_revert s.last_opcode_with_stack interp.opcode)
              interp.opcode f2
           else f2)).used_opcodes :=
    handle_storage_access_used_opcodes _ _ _ _ _ h5
  have hgc : histCount f5.used_opcodes OpCode.GAS
      = histCount (if (check_revert s.last_opcode_with_stack interp.opcode).isSome then
          handle_gas_observed (check_revert s.last_opcode_with_stack interp.opcode)
            interp.opcode f2
         else f2).used_opcodes OpCode.GAS := by
    rw [congrArg (fun m => histCount m OpCode.GAS) hstor]
    exact store_used_opcode_gas _ _ _
  by_cases hrev : (interp.opcode == OpCode.REVERT || interp.opcode == OpCode.RETURN) = true
  · have hcrn : check_revert s.last_opcode_with_stack interp.opcode = none := by
      unfold check_revert
      rw [if_pos hrev]
    have hnotboth : ¬(interp.opcode ≠ OpCode.REVERT ∧ interp.opcode ≠ OpCode.RETURN) := by
      intro hnb
      rcases Bool.or_eq_true_iff.mp hrev with hx | hx
      · exact hnb.1 (by simpa using hx)
      · exact hnb.2 (by simpa using hx)
    rw [hgc, hcrn]
    simp only [Option.isSome_none, Bool.false_eq_true, if_false]
    rw [hf2, hf1]
    rw [if_neg (by tauto)]
    omega
  · have hcr : check_revert s.last_opcode_with_stack interp.opcode
        = s.last_opcode_with_stack := by
      unfold check_revert
      rw [if_neg hrev]
    have hne1 : interp.opcode ≠ OpCode.REVERT := by
      intro hx
      exact hrev (by simp [hx])
    have hne2 : interp.opcode ≠ OpCode.RETURN := by
      intro hx
      exact hrev (by simp [hx])
    rw [hgc, hcr]
    by_cases hl : (s.last_opcode_with_stack).isSome
    · rw [if_pos hl]
      rw [handle_gas_observed_gas]
      rw [hf2, hf1]
      congr 1
      by_cases hc : s.last_opcode_with_stack.map OpCodeWithPartialStack.opcode
            = some OpCode.GAS ∧ is_call interp.opcode = false
      · rw [if_pos hc, if_pos ⟨hc.1, hc.2, hne1, hne2⟩]
      · rw [if_neg hc, if_neg (by tauto)]
    · rw [if_neg hl]
      rw [hf2, hf1]
      have hln : s.last_opcode_with_stack = none := by
        cases hval : s.last_opcode_with_stack with
        | none => rfl
        | some l =>
          rw [hval] at hl
          exact absurd rfl hl
      rw [if_neg (by
        intro hand
        rw [hln] at hand
        exact Option.noConfusion hand.1)]
      omega

/-- Claim C9 (amended): for every frame and event sequence, the histogram count
recorded for the GAS opcode equals the initial count plus the number of step
events whose previously observed opcode was GAS and whose current opcode is
neither call-like (CALL, CALLCODE, DELEGATECALL, STATICCALL) nor REVERT nor
RETURN; the claim as stated omits the REVERT/RETURN exclusion that the
lookback-clearing step imposes. -/
theorem gas_histogram_count_eq (config : Config) (p : Provider) (evs : List Interp)
    (s : StepState) :
    (runFrame config p evs s).map (fun s2 => histCount s2.frame.used_opcodes OpCode.GAS)
      = (runFrame config p evs s).map (fun _ =>
          histCount s.frame.used_opcodes OpCode.GAS
          + gas_observation_count
              (s.last_opcode_with_stack.map OpCodeWithPartialStack.opcode)
              (evs.map Interp.opcode)) := by
  induction evs generalizing s with
  | nil => simp [runFrame, gas_observation_count]
  | cons e rest ih =>
    unfold runFrame
    rcases hstep : stepFrame config p e s with _ | s2
    · simp
    · have hg := stepFrame_gas config p e s s2 hstep
      rw [ih s2]
      have hfun : histCount s2.frame.used_opcodes OpCode.GAS
            + gas_observation_count
                (s2.last_opcode_with_stack.map OpCodeWithPartialStack.opcode)
                (rest.map Interp.opcode)
          = histCount s.frame.used_opcodes OpCode.GAS
            + gas_observation_count
                (s.last_opcode_with_stack.map OpCodeWithPartialStack.opcode)
                ((e :: rest).map Interp.opcode) := by
        rw [hg.1, hg.2]
        simp only [List.map_cons, gas_observation_count]
        omega
      rw [hfun]

/-- Claim C9 (counterexample): a GAS opcode followed by REVERT. The claim as
stated predicts one gas-observation increment (REVERT is not call-like), but
the code clears the lookback memory on REVERT before the gas check, so the
frame records no GAS count at all. -/
theorem gas_histogram_mismatch_on_revert :
    gas_observation_claim_count none [OpCode.GAS, OpCode.REVERT] = 1 ∧
    (runFrame defCfg pZ [ev OpCode.GAS [], ev OpCode.REVERT [0, 0]] s0).map
        (fun s => histCount s.frame.used_opcodes OpCode.GAS) = some 0 := by
  exact ⟨by decide, rfl⟩

/-- Claim C1 (code_bug): a step event with a countable opcode (CALLER) arrives
while one frame is open; the claim and the spec say the topmost stored frame's
histogram is incremented in place, but step clones the top frame, applies all
bookkeeping to the clone (whose histogram does reach 1) and discards it: the
stored frame still has count 0 afterwards. -/
theorem step_discards_frame_updates :
    defCfg.ignored_opcodes.contains OpCode.CALLER = false ∧
    (Tracer.step tOne (ev OpCode.CALLER [0, 0, 0, 0]) pZ).map
        (fun u => u.callstack_with_opcodes.map
          (fun fr => histCount fr.core.used_opcodes OpCode.CALLER)) = some [0] ∧
    (Tracer.stepComputedFrame tOne (ev OpCode.CALLER [0, 0, 0, 0]) pZ).map
        (fun fr => histCount fr.used_opcodes OpCode.CALLER) = some 1 := by
  exact ⟨rfl, rfl, rfl⟩

/-- Claim C2 (counterexample): a step event delivered with 0 entries on the
operand stack while the configured window is 3 (so N+1 = 4 entries are called
for) does not fail: the handler returns normally and records an empty
stack-window snapshot. -/
theorem step_short_stack_no_failure :
    defCfg.stack_top_items_size = 3 ∧
    (ev OpCode.CALLER []).stack.length = 0 ∧
    Tracer.step tOne (ev OpCode.CALLER []) pZ
      = some { tOne with
          last_opcode_with_stack :=
            some ({ opcode := OpCode.CALLER, stack_top_items := [] } :
              OpCodeWithPartialStack) } := by
  exact ⟨rfl, rfl, rfl⟩

/-- Claim C2 (amended): with fewer operand-stack entries than the configured
window requires, the step handler does not fail; it records the truncated
window (the whole remaining stack, i.e. take (N+1)) and continues, as long as
the opcode itself needs no operand peek (not external-code/call-like, not a
storage opcode, not KECCAK256). -/
theorem step_short_stack_truncated_window (t : Tracer) (interp : Interp)
    (p : Provider) (top : CallFrame) (rest : List CallFrame)
    (hcs : t.callstack_with_opcodes = top :: rest)
    (hlast : t.last_opcode_with_stack = none)
    (hv : isValidOpcode interp.opcode = true)
    (hec : is_ext_or_call interp.opcode = false)
    (hs1 : interp.opcode ≠ OpCode.SLOAD) (hs2 : interp.opcode ≠ OpCode.SSTORE)
    (hs3 : interp.opcode ≠ OpCode.TLOAD) (hs4 : interp.opcode ≠ OpCode.TSTORE)
    (hk : interp.opcode ≠ OpCode.KECCAK256) :
    Tracer.step t interp p
      = some { t with
          last_opcode_with_stack :=
            some ({ opcode := interp.opcode,
                    stack_top_items :=
                      interp.stack.take (t.config.stack_top_items_size + 1) } :
              OpCodeWithPartialStack) } := by
  obtain ⟨cfg, gl, dp, itr, cs, lo, kc⟩ := t
  subst hcs
  subst hlast
  have e1 : (interp.opcode == OpCode.SLOAD) = false := by
    simpa using hs1
  have e2 : (interp.opcode == OpCode.SSTORE) = false := by
    simpa using hs2
  have e3 : (interp.opcode == OpCode.TLOAD) = false := by
    simpa using hs3
  have e4 : (interp.opcode == OpCode.TSTORE) = false := by
    simpa using hs4
  have ek : (interp.opcode == OpCode.KECCAK256) = false := by
    simpa using hk
  unfold Tracer.step
  simp only [hv, Bool.not_true, Bool.false_eq_true, if_false]
  unfold stepFrame
  dsimp only
  simp only [Option.isSome_none, Bool.false_eq_true, if_false]
  unfold handle_accessed_contract_size
  rw [hec]
  unfold check_revert
  rw [ite_self]
  simp only [Option.isSome_none, Bool.false_eq_true, if_false]
  unfold handle_storage_access
  rw [e1, e2, e3, e4]
  dsimp only
  unfold store_keccak
  rw [ek]
  rw [window_eq_take]
  simp

/-- Claim C2 witness: the truncated-window theorem applied to a CALLER step on
an empty operand stack with the default window size 3. -/
theorem step_short_stack_truncated_window_witness :
    Tracer.step tOne (ev OpCode.CALLER []) pZ
      = some { tOne with
          last_opcode_with_stack :=
            some ({ opcode := (ev OpCode.CALLER []).opcode,
                    stack_top_items :=
                      (ev OpCode.CALLER []).stack.take
                        (tOne.config.stack_top_items_size + 1) } :
              OpCodeWithPartialStack) } :=
  step_short_stack_truncated_window tOne (ev OpCode.CALLER []) pZ
    (CallFrame.mk FrameCore.empty []) [] rfl rfl (by decide) (by decide)
    (by decide) (by decide) (by decide) (by decide) (by decide)

/-- Claim C3 (code_bug): an EXTCODESIZE step targeting precompile address 1
caches a contract-size entry for that address in the frame, because
is_allowed_precompile reads the big-endian address bytes with from_le_slice
(address 1 is misread as 2 to the power 152) and so fails to exclude it. -/
theorem contract_size_caches_precompile_one :
    is_allowed_precompile 1 = false ∧
    (runFrame defCfg pZ [ev OpCode.EXTCODESIZE [1]] s0).map
        (fun s => alist_find s.frame.contract_size 1)
      = some (some { contract_size := 1, opcode := OpCode.EXTCODESIZE }) := by
  exact ⟨rfl, rfl⟩

/-- Claim C4 (counterexample): SSTORE on slot 1 followed by SLOAD on slot 1 in
the same frame. The claim says the earlier write suppresses the read record,
but the code's "writes" check reads the reads map a second time, so the SLOAD
is recorded under reads (and the provider is queried) anyway. -/
theorem sload_after_sstore_records_read :
    (runFrame defCfg pZ [ev OpCode.SSTORE [1, 9], ev OpCode.SLOAD [1]] s0).map
        (fun s => (alist_find s.frame.accessed_slots.reads 1,
                   alist_find s.frame.accessed_slots.writes 1))
      = some (some [7], some 1) := by
  exact rfl

/-- Claim C4 (amended): on SLOAD the provider is queried and the value recorded
under reads if and only if the slot has no existing entry in the READS map
alone (the writes map is never consulted: the source checks reads twice); when
the slot is already in reads, the frame is unchanged and the result does not
depend on the provider at all. -/
theorem sload_first_read_reads_only (p p2 : Provider) (f : FrameCore)
    (stack : List Nat) (slot : Nat) (hs : stack.get? 0 = some slot) :
    (alist_find f.accessed_slots.reads slot = none →
      ∀ v : Nat, p.storage (addr_from_word slot) slot = some v →
        handle_storage_access p OpCode.SLOAD stack f
          = some { f with accessed_slots := { f.accessed_slots with
              reads := alist_insert f.accessed_slots.reads slot [v] } })
    ∧ ((alist_find f.accessed_slots.reads slot).isSome = true →
        handle_storage_access p OpCode.SLOAD stack f = some f
        ∧ handle_storage_access p OpCode.SLOAD stack f
          = handle_storage_access p2 OpCode.SLOAD stack f) := by
  have hs2 : stack[0]? = some slot := by
    simpa using hs
  constructor
  · intro hnone v hv
    simp [handle_storage_access, hs2, hnone, hv]
  · intro hsome
    obtain ⟨l, hl⟩ := Option.isSome_iff_exists.mp hsome
    constructor
    · simp [handle_storage_access, hs2, hl]
    · simp [handle_storage_access, hs2, hl]

/-- Claim C4 witness: a first SLOAD of slot 1 on a fresh frame records the
provider's value under reads. -/
theorem sload_first_read_reads_only_witness :
    handle_storage_access pZ OpCode.SLOAD [1] FrameCore.empty
      = some { FrameCore.empty with accessed_slots := { FrameCore.empty.accessed_slots with
          reads := alist_insert FrameCore.empty.accessed_slots.reads 1 [7] } } :=
  (sload_first_read_reads_only pZ pZ FrameCore.empty [1] 1 rfl).1 rfl 7 rfl

/-- Claim C5 (counterexample): two EXTCODEHASH steps on address 5, each
followed by a non-ISZERO opcode. The claim says the external-code-access list
is deduplicated and excludes precompiles 1 through 9; the code appends
unconditionally, so precompile address 5 appears twice. -/
theorem ext_code_access_duplicate_entries :
    (runFrame defCfg pZ [ev OpCode.EXTCODEHASH [5], ev OpCode.JUMPDEST [],
                         ev OpCode.EXTCODEHASH [5], ev OpCode.JUMPDEST []] s0).map
        (fun s => s.frame.ext_code_access_info) = some [5, 5] := by
  exact rfl

/-- Claim C5 (amended): whenever the previous opcode was an external-code
opcode (and the EXTCODESIZE-then-ISZERO zero-check pattern does not apply),
the captured address is appended to the frame's external-code-access list with
no per-frame deduplication and no precompile exclusion. -/
theorem ext_code_access_appends (last : OpCodeWithPartialStack) (w opcode : Nat)
    (f : FrameCore) (hext : is_ext last.opcode = true)
    (hw : last.stack_top_items.get? 0 = some w)
    (hiz : ¬(last.opcode = OpCode.EXTCODESIZE ∧ opcode = OpCode.ISZERO)) :
    handle_ext_opcodes (some last) opcode f
      = some { f with ext_code_access_info :=
          f.ext_code_access_info ++ [addr_from_word w] } := by
  have hb : (last.opcode == OpCode.EXTCODESIZE && opcode == OpCode.ISZERO) = false := by
    by_cases h1 : last.opcode = OpCode.EXTCODESIZE
    · by_cases h2 : opcode = OpCode.ISZERO
      · exact absurd ⟨h1, h2⟩ hiz
      · simp [h2]
    · simp [h1]
  have hw2 : last.stack_top_items[0]? = some w := by
    simpa using hw
  unfold handle_ext_opcodes
  dsimp only
  simp [hext, hw2, hb]

/-- Claim C5 witness: an EXTCODEHASH of address 5 followed by JUMPDEST appends
address 5 to the list of a fresh frame. -/
theorem ext_code_access_appends_witness :
    handle_ext_opcodes (some { opcode := OpCode.EXTCODEHASH, stack_top_items := [5] })
        OpCode.JUMPDEST FrameCore.empty
      = some { FrameCore.empty with ext_code_access_info :=
          FrameCore.empty.ext_code_access_info ++ [addr_from_word 5] } :=
  ext_code_access_appends { opcode := OpCode.EXTCODEHASH, stack_top_items := [5] }
    5 OpCode.JUMPDEST FrameCore.empty (by decide) rfl (by decide)

/-- Claim C6 (counterexample): with the interrupt flag set, a step event still
runs (it records a new lookback snapshot) and a call event still pushes a
frame; only log events are gated on the flag. -/
theorem interrupted_step_still_mutates :
    tInt.interrupt = true ∧ tInt.last_opcode_with_stack = none ∧
    (Tracer.step tInt (ev OpCode.CALLER []) pZ).map (fun u => u.last_opcode_with_stack)
      = some (some { opcode := OpCode.CALLER, stack_top_items := [] }) ∧
    (Tracer.call tInt 1 inpX).callstack_with_opcodes.length = 2 ∧
    tInt.callstack_with_opcodes.length = 1 := by
  exact ⟨rfl, rfl, rfl, rfl, rfl⟩

/-- Claim C6 (amended): the interrupt flag gates only the log handler: an
interrupted tracer ignores log events, while step and call behave exactly as
they would with the flag clear (the flag is never read by either). -/
theorem interrupt_only_gates_log (t : Tracer) (interp : Interp) (p : Provider)
    (d : Nat) (inputs : CallInputs) (data : List Nat) (b : Bool) :
    Tracer.log { t with interrupt := true } data = { t with interrupt := true }
    ∧ Tracer.step { t with interrupt := b } interp p
        = (Tracer.step t interp p).map (fun u => { u with interrupt := b })
    ∧ Tracer.call { t with interrupt := b } d inputs
        = { (Tracer.call t d inputs) with interrupt := b } := by
  obtain ⟨cfg, gl, dp, itr, cs, lo, kc⟩ := t
  refine ⟨?_, ?_, ?_⟩
  · unfold Tracer.log
    dsimp only
    split
    · rfl
    · rfl
  · unfold Tracer.step
    dsimp only
    by_cases hv : isValidOpcode interp.opcode
    · simp only [hv, Bool.not_true, Bool.false_eq_true, if_false]
      cases cs with
      | nil => rfl
      | cons top rest =>
        dsimp only
        cases hsf : stepFrame cfg p interp
            { last_opcode_with_stack := lo, keccak := kc, frame := top.core } with
        | none => rfl
        | some s2 => rfl
    · simp [hv]
  · rfl

/-- Claim C7 (counterexample): a nested call reverts with a 4-byte-selector
reason the decoder recognizes. The sealed child appended to the parent has its
revert_reason populated, but its error field is NOT set (a revert outcome is
not classified as an error) and its reverted flag is never written. -/
theorem nested_revert_error_not_set :
    out7.result = InstructionResult.revert ∧
    dec7 out7.output = some "oops" ∧
    (Tracer.call_end dec7 t7 out7).map (fun u => u.callstack_with_opcodes.map
        (fun fr => fr.calls.map
          (fun c => (c.core.error, c.core.reverted, c.core.revert_reason))))
      = some [[(none, false, some "oops")]] := by
  exact ⟨rfl, rfl, rfl⟩

/-- Claim C7 (amended): for a nested call whose outcome is a revert with a
decodable reason of at least 4 bytes, the sealed child appended to the parent
carries the decoded revert_reason, the raw output and the gas spent; its error
and reverted fields are left exactly as they were on the open frame. -/
theorem nested_revert_seals_reason (decode : List Nat → Option String)
    (t : Tracer) (child parent : CallFrame) (rest : List CallFrame)
    (outcome : CallOutcome) (s : String)
    (hd : t.depth ≠ 0)
    (hcs : t.callstack_with_opcodes = child :: parent :: rest)
    (hr : outcome.result = InstructionResult.revert)
    (hl : 4 ≤ outcome.output.length)
    (hdec : decode outcome.output = some s) :
    Tracer.call_end decode t outcome
      = some { t with
          depth := t.depth - 1,
          callstack_with_opcodes :=
            CallFrame.mk parent.core (parent.calls ++
              [CallFrame.mk { child.core with
                  gas_used := outcome.gas_spent,
                  revert_reason := some s,
                  output := some outcome.output } child.calls]) :: rest } := by
  obtain ⟨cfg, gl, dp, itr, cs, lo, kc⟩ := t
  obtain ⟨ccore, ccalls⟩ := child
  obtain ⟨pcore, pcalls⟩ := parent
  subst hcs
  have hd0 : (dp == 0) = false := by
    simpa using hd
  unfold Tracer.call_end
  try dsimp only
  rw [hd0]
  try dsimp only
  rw [if_neg (show ¬((CallFrame.mk ccore ccalls :: CallFrame.mk pcore pcalls ::
    rest).length ≤ 1) by simp)]
  try dsimp only
  rw [hr]
  try dsimp only
  unfold process_output
  try dsimp only [CallFrame.core, CallFrame.calls]
  rw [hr]
  try dsimp only [InstructionResult.is_ok, InstructionResult.is_error,
    InstructionResult.is_revert]
  simp only [Bool.false_eq_true, if_false, Bool.false_and, Bool.true_and]
  rw [decide_eq_true hl]
  try dsimp only
  rw [hdec]
  try simp [CallFrame.core, CallFrame.calls]

/-- Claim C7 witness: the concrete nested revert scenario sealed through
call_end. -/
theorem nested_revert_seals_reason_witness :
    Tracer.call_end dec7 t7 out7
      = some { t7 with
          depth := t7.depth - 1,
          callstack_with_opcodes :=
            CallFrame.mk parent7.core (parent7.calls ++
              [CallFrame.mk { child7.core with
                  gas_used := out7.gas_spent,
                  revert_reason := some "oops",
                  output := some out7.output } child7.calls]) :: ([] : List CallFrame) } :=
  nested_revert_seals_reason dec7 t7 child7 parent7 [] out7 "oops"
    (by decide) rfl rfl (by decide) rfl

/-- Claim C8 (confirmed): the draft tracer's process_output replaces the target
address of every CREATE or CREATE2 frame with the zero-address sentinel,
whatever the execution outcome (output, error text, reverted flag) was. -/
theorem create_frame_to_sentinel (f : Erc7562Draft.CallFrameWithOpcodes)
    (output : List Nat) (error : String) (reverted : Bool) :
    (Erc7562Draft.process_output { f with ty := OpCode.CREATE }
        output error reverted).toAddr = 0
    ∧ (Erc7562Draft.process_output { f with ty := OpCode.CREATE2 }
        output error reverted).toAddr = 0 := by
  constructor
  · unfold Erc7562Draft.process_output
    dsimp only
    simp
  · unfold Erc7562Draft.process_output
    dsimp only
    simp

/-- Claim C10 (confirmed): a step event delivered while the call-frame stack is
empty never returns normally: the handler unwraps the last element of the
empty stack and panics, whatever the event and provider are. -/
theorem step_empty_callstack_none (t : Tracer) (interp : Interp) (p : Provider) :
    Tracer.step { t with callstack_with_opcodes := [] } interp p = none := by
  unfold Tracer.step
  split
  · rfl
  · rfl

end Erc7562
